import Mathlib

/-!
Verification of the token-security engine of the Weeg backend
(`apps/token_security`): token issuance, refresh-token rotation with
replay detection, revocation, the per-request authentication gate, and
the login rate limiter.  The Django ORM state (tables
`token_refresh_rotation`, `token_blacklist`, `token_active_session`,
`token_login_attempt`, plus the user table) is embedded as explicit
record state; SHA-256 is treated as an abstract string-to-string
function passed as a parameter, since only equality of digests matters
to the logic under verification.
-/

/-- Abstract stand-in for `hashlib.sha256(x.encode()).hexdigest()`. -/
abbrev Hash := String → String

/-- The request metadata consulted by `apps/token_security/utils.py`:
`request.META` headers used for the client IP and the device
fingerprint. -/
structure Request where
  userAgent : String
  acceptLanguage : String
  acceptEncoding : String
  xForwardedFor : Option String
  remoteAddr : String
deriving DecidableEq, Repr

/-- The fields of the `User` model (`apps/authentication/models.py`)
read by the token engine: identity, role data embedded in tokens,
`token_version` (the password epoch) and the account `status`. -/
structure User where
  id : Nat
  email : String
  role : String
  permissionsList : List String
  branchId : Option String
  tokenVersion : Nat
  status : String
deriving DecidableEq, Repr

/-- Decoded JWT payload as built by `apps/token_security/tokens.py`.
`tokenVersion`, `deviceFp` and `ipHash` are optional because the
validators in `validators.py` handle their absence explicitly. -/
structure TokenPayload where
  jti : String
  userId : Nat
  tokenType : String
  tokenVersion : Option Nat
  deviceFp : Option String
  ipHash : Option String
  role : String
  permissions : List String
  branchId : Option String
deriving DecidableEq, Repr

/-- Row of `token_refresh_rotation` (`RefreshTokenRotation` model):
`old_token_jti` carries a UNIQUE constraint. -/
structure RotationRecord where
  userId : Nat
  oldTokenJti : String
  newTokenJti : String
  ipAddress : String
  deviceFingerprint : String
deriving DecidableEq, Repr

/-- Row of `token_blacklist` (`TokenBlacklist` model): `token_jti`
carries a UNIQUE constraint. -/
structure BlacklistEntry where
  tokenJti : String
  userId : Nat
  tokenType : String
  reason : String
deriving DecidableEq, Repr

/-- Row of `token_active_session` (`ActiveSession` model).  Note that
`ip_address` is a `GenericIPAddressField` holding the client IP as
supplied, while `device_fingerprint` holds the SHA-256 fingerprint
computed by `get_device_fingerprint`. -/
structure Session where
  id : String
  userId : Nat
  refreshTokenJti : String
  deviceFingerprint : String
  deviceName : String
  ipAddress : String
deriving DecidableEq, Repr

/-- Row of `token_login_attempt` (`LoginAttempt` model). -/
structure LoginAttemptRow where
  email : String
  ipAddress : String
  userAgent : String
  isSuccessful : Bool
  failureReason : Option String
deriving DecidableEq, Repr

/-- The durable database state seen by the token engine. -/
structure DBState where
  users : List User
  rotations : List RotationRecord
  blacklist : List BlacklistEntry
  sessions : List Session
deriving DecidableEq, Repr

/-- Lookup `User.objects.get(id=uid)` (first matching row). -/
def findUser (db : DBState) (uid : Nat) : Option User :=
  db.users.find? (fun u => u.id == uid)

/-- Embeds `RefreshTokenRotation.objects.filter(old_token_jti=jti).exists()`. -/
def hasRotation (db : DBState) (jti : String) : Bool :=
  db.rotations.any (fun r => r.oldTokenJti == jti)

/-- Embeds `TokenBlacklist.objects.filter(token_jti=jti).exists()`. -/
def inBlacklist (db : DBState) (jti : String) : Bool :=
  db.blacklist.any (fun e => e.tokenJti == jti)

/-- Embeds `utils.get_client_ip`: first entry of `X-Forwarded-For`
when that header is present and non-empty, else `REMOTE_ADDR`. -/
def get_client_ip (req : Request) : String :=
  match req.xForwardedFor with
  | some s => if s = "" then req.remoteAddr else ((s.splitOn ",").headD "").trim
  | none => req.remoteAddr

/-- Embeds `utils.get_device_fingerprint`: SHA-256 over the joined
User-Agent, Accept-Language and Accept-Encoding headers. -/
def get_device_fingerprint (h : Hash) (req : Request) : String :=
  h (String.intercalate "|" [req.userAgent, req.acceptLanguage, req.acceptEncoding])

/-- Substring test standing in for the Python `in` operator on
strings (patterns used by `parse_device_name` are all non-empty). -/
def containsSub (s pat : String) : Bool :=
  (s.splitOn pat).length != 1

/-- Embeds `utils.parse_device_name`. -/
def parse_device_name (user_agent : String) : String :=
  if user_agent = "" then "Appareil inconnu"
  else
    let ua_lower := user_agent.toLower
    let os_name :=
      if containsSub ua_lower "windows" then "Windows"
      else if containsSub ua_lower "macintosh" || containsSub ua_lower "mac os" then "macOS"
      else if containsSub ua_lower "iphone" then "iPhone"
      else if containsSub ua_lower "ipad" then "iPad"
      else if containsSub ua_lower "android" then "Android"
      else if containsSub ua_lower "linux" then "Linux"
      else "Appareil inconnu"
    let browser :=
      if containsSub ua_lower "edg/" then "Edge"
      else if containsSub ua_lower "chrome" && !containsSub ua_lower "chromium" then "Chrome"
      else if containsSub ua_lower "firefox" then "Firefox"
      else if containsSub ua_lower "safari" && !containsSub ua_lower "chrome" then "Safari"
      else if containsSub ua_lower "opera" || containsSub ua_lower "opr/" then "Opera"
      else "Navigateur inconnu"
    browser ++ " sur " ++ os_name

/-- Embeds `CustomRefreshToken.for_user_with_context`
(`tokens.py`): fresh jti, hashed device fingerprint and IP, and the
user's current `token_version`. -/
def CustomRefreshToken_for_user_with_context (h : Hash) (user : User)
    (device_fingerprint ip_address jti : String) : TokenPayload :=
  { jti := jti
    userId := user.id
    tokenType := "refresh"
    tokenVersion := some user.tokenVersion
    deviceFp := some (h device_fingerprint)
    ipHash := some (h ip_address)
    role := ""
    permissions := []
    branchId := none }

/-- Embeds `refresh_token.access_token` (simplejwt copies the custom
claims of the refresh payload into the derived access token, with a
fresh jti and the access token type). -/
def refresh_access_token (refresh : TokenPayload) (jti : String) : TokenPayload :=
  { refresh with jti := jti, tokenType := "access" }

/-- Embeds the access-token enrichment performed by
`TokenService.issue_tokens` and `TokenService.rotate_refresh_token`:
role, permissions, token_version and branch_id claims. -/
def enrich_access_token (access : TokenPayload) (user : User) : TokenPayload :=
  { access with
      role := user.role
      permissions := user.permissionsList
      tokenVersion := some user.tokenVersion
      branchId := user.branchId }

/-- Failure modes of the authentication gate
(`CustomJWTAuthentication.authenticate` and the validators raise
`AuthenticationFailed` with the corresponding `code`). -/
inductive AuthError
  | jtiMissing
  | tokenBlacklisted
  | userNotFound
  | tokenVersionMissing
  | tokenVersionMismatch
  | deviceFingerprintMismatch
deriving DecidableEq, Repr

/-- Embeds `TokenVersionValidator.validate` (`validators.py`):
missing version claim or a stale version fails authentication.
`none` means the check passed. -/
def TokenVersionValidator_validate (payload : TokenPayload) (user : User) : Option AuthError :=
  match payload.tokenVersion with
  | none => some AuthError.tokenVersionMissing
  | some v => if v != user.tokenVersion then some AuthError.tokenVersionMismatch else none

/-- Embeds `BlacklistValidator.validate`: the jti must not occur in
the `token_blacklist` table. -/
def BlacklistValidator_validate (db : DBState) (token_jti : String) : Option AuthError :=
  if inBlacklist db token_jti then some AuthError.tokenBlacklisted else none

/-- Embeds `DeviceValidator.validate`: a token without a stored
`device_fp` claim (absent or empty, the Python falsiness test) is
tolerated; otherwise the stored hash must equal the SHA-256 of the
current fingerprint. -/
def DeviceValidator_validate (h : Hash) (payload : TokenPayload)
    (current_fingerprint : String) : Option AuthError :=
  match payload.deviceFp with
  | none => none
  | some stored_fp =>
    if stored_fp = "" then none
    else if stored_fp != h current_fingerprint then
      some AuthError.deviceFingerprintMismatch
    else none

/-- Embeds `IPValidator.validate`: returns whether the current IP
matches the stored hash; an absent or empty stored hash counts as a
match.  This validator never fails the request. -/
def IPValidator_validate (h : Hash) (payload : TokenPayload) (current_ip : String) : Bool :=
  match payload.ipHash with
  | none => true
  | some stored_ip_hash =>
    if stored_ip_hash = "" then true
    else stored_ip_hash == h current_ip

/-- Result of a successful pass through the authentication gate: the
resolved user, plus whether `_log_ip_change` fired (IP mismatch is
log-only). -/
structure AuthResult where
  user : User
  ipChangeLogged : Bool
deriving DecidableEq, Repr

/-- Embeds `CustomJWTAuthentication.authenticate` (`backends.py`)
from the point where the signature-validated payload is available:
jti presence, blacklist, user lookup, token version, device
fingerprint, and the log-only IP comparison, in source order. -/
def authenticate (h : Hash) (payload : TokenPayload) (req : Request)
    (db : DBState) : Except AuthError AuthResult :=
  let token_jti := payload.jti
  if token_jti = "" then Except.error AuthError.jtiMissing
  else
    match BlacklistValidator_validate db token_jti with
    | some e => Except.error e
    | none =>
      match findUser db payload.userId with
      | none => Except.error AuthError.userNotFound
      | some user =>
        match TokenVersionValidator_validate payload user with
        | some e => Except.error e
        | none =>
          let device_fingerprint := get_device_fingerprint h req
          match DeviceValidator_validate h payload device_fingerprint with
          | some e => Except.error e
          | none =>
            let current_ip := get_client_ip req
            let ip_matches := IPValidator_validate h payload current_ip
            Except.ok { user := user, ipChangeLogged := !ip_matches }

/-- Embeds `TokenService._blacklist_jti`: `get_or_create` keyed on
the unique `token_jti` column — a duplicate insert is a no-op. -/
def blacklist_jti (jti : String) (user : User) (token_type reason : String)
    (db : DBState) : DBState :=
  if inBlacklist db jti then db
  else
    { db with
        blacklist := db.blacklist ++
          [{ tokenJti := jti, userId := user.id, tokenType := token_type, reason := reason }] }

/-- Embeds `TokenService.revoke_token`: blacklist the jti and, for
refresh tokens, delete the matching active session. -/
def revoke_token (token_jti : String) (user : User) (token_type reason : String)
    (db : DBState) : DBState :=
  let db1 := blacklist_jti token_jti user token_type reason db
  if token_type = "refresh" then
    { db1 with
        sessions := db1.sessions.filter
          (fun s => !(s.userId == user.id && s.refreshTokenJti == token_jti)) }
  else db1

/-- Embeds `TokenService.revoke_all_user_tokens`: blacklist the
refresh jti of every active session of the user, delete those
sessions, return the count. -/
def revoke_all_user_tokens (user : User) (reason : String) (db : DBState) :
    Nat × DBState :=
  let active_sessions := db.sessions.filter (fun s => s.userId == user.id)
  let count := active_sessions.length
  let db1 := active_sessions.foldl
    (fun acc s => blacklist_jti s.refreshTokenJti user "refresh" reason acc) db
  let db2 := { db1 with sessions := db1.sessions.filter (fun s => !(s.userId == user.id)) }
  (count, db2)

/-- Return value of `TokenService.issue_tokens` (the serialized token
strings are represented by their payloads). -/
structure IssueResult where
  access : TokenPayload
  refresh : TokenPayload
  sessionId : String
deriving DecidableEq, Repr

/-- Embeds `TokenService.issue_tokens`: mint an enriched refresh and
access pair and create the `ActiveSession` row.  The fresh jtis and
session id (uuids in the source) are supplied as arguments. -/
def issue_tokens (h : Hash) (user : User) (req : Request)
    (refreshJti accessJti sessionId : String) (db : DBState) :
    IssueResult × DBState :=
  let ip_address := get_client_ip req
  let device_fingerprint := get_device_fingerprint h req
  let device_name := parse_device_name req.userAgent
  let refresh_token :=
    CustomRefreshToken_for_user_with_context h user device_fingerprint ip_address refreshJti
  let access_token := enrich_access_token (refresh_access_token refresh_token accessJti) user
  let session : Session :=
    { id := sessionId
      userId := user.id
      refreshTokenJti := refresh_token.jti
      deviceFingerprint := device_fingerprint
      deviceName := device_name
      ipAddress := ip_address }
  ({ access := access_token, refresh := refresh_token, sessionId := sessionId },
   { db with sessions := db.sessions ++ [session] })

/-- Failure modes of `TokenService.rotate_refresh_token`:
`replayDetected` is the `ValueError` raised on reuse of an
already-rotated jti (surfaced by `RefreshView` as
`token_reuse_detected`, 401); `userNotFound` models the
`User.DoesNotExist` escape. -/
inductive RotateError
  | replayDetected
  | userNotFound
deriving DecidableEq, Repr

/-- New token pair returned by a successful rotation. -/
structure TokenPair where
  access : TokenPayload
  refresh : TokenPayload
deriving DecidableEq, Repr

/-- Embeds `TokenService.rotate_refresh_token` (`services.py`):
first-use check against the rotation ledger (replay triggers
`revoke_all_user_tokens` and fails), then mint the new pair, append
the `RefreshTokenRotation` record, blacklist the old jti and move the
active session to the new jti.  Note the source performs no
`token_version` comparison against the old payload. -/
def rotate_refresh_token (h : Hash) (old_payload : TokenPayload) (req : Request)
    (newRefreshJti newAccessJti : String) (db : DBState) :
    Except RotateError TokenPair × DBState :=
  let old_jti := old_payload.jti
  let user_id := old_payload.userId
  if hasRotation db old_jti then
    match findUser db user_id with
    | none => (Except.error RotateError.userNotFound, db)
    | some user =>
      (Except.error RotateError.replayDetected,
       (revoke_all_user_tokens user "token_reuse" db).2)
  else
    match findUser db user_id with
    | none => (Except.error RotateError.userNotFound, db)
    | some user =>
      let ip_address := get_client_ip req
      let device_fingerprint := get_device_fingerprint h req
      let new_refresh_token :=
        CustomRefreshToken_for_user_with_context h user device_fingerprint ip_address newRefreshJti
      let new_access_token :=
        enrich_access_token (refresh_access_token new_refresh_token newAccessJti) user
      let db1 :=
        { db with
            rotations := db.rotations ++
              [{ userId := user.id
                 oldTokenJti := old_jti
                 newTokenJti := new_refresh_token.jti
                 ipAddress := ip_address
                 deviceFingerprint := device_fingerprint }] }
      let db2 := blacklist_jti old_jti user "refresh" "logout" db1
      let db3 :=
        { db2 with
            sessions := db2.sessions.map
              (fun s =>
                if s.userId == user.id && s.refreshTokenJti == old_jti then
                  { s with refreshTokenJti := new_refresh_token.jti }
                else s) }
      (Except.ok { access := new_access_token, refresh := new_refresh_token }, db3)

/-- Embeds `User.increment_token_version`
(`apps/authentication/models.py`). -/
def increment_token_version (u : User) : User :=
  { u with tokenVersion := u.tokenVersion + 1 }

/-- Persist an updated user row (`user.save()`), replacing rows with
the same id. -/
def saveUser (db : DBState) (u : User) : DBState :=
  { db with users := db.users.map (fun x => if x.id == u.id then u else x) }

/-- Constant `MAX_LOGIN_ATTEMPTS` from `middleware.py`. -/
def MAX_LOGIN_ATTEMPTS : Nat := 5

/-- The Django-cache keys used by `RateLimitLoginMiddleware`, keyed
per client IP: the failure counter (`login_attempts:ip`, default 0
when absent) and the lockout flag (`login_lockout:ip`, locked when
the key is present).  Expiry of the 15-minute TTL is not modelled:
all events considered by the claims happen inside one window. -/
structure CacheState where
  attempts : String → Nat
  locked : String → Bool

/-- Embeds `RateLimitLoginMiddleware._is_locked_out`. -/
def is_locked_out (c : CacheState) (ip_address : String) : Bool :=
  c.locked ip_address

/-- Embeds `RateLimitLoginMiddleware._increment_attempts`: bump the
counter and set the lockout flag once it reaches
`MAX_LOGIN_ATTEMPTS`. -/
def increment_attempts (c : CacheState) (ip_address : String) : CacheState :=
  let attempts := c.attempts ip_address + 1
  let c1 : CacheState :=
    { c with attempts := fun x => if x = ip_address then attempts else c.attempts x }
  if attempts ≥ MAX_LOGIN_ATTEMPTS then
    { c1 with locked := fun x => if x = ip_address then true else c.locked x }
  else c1

/-- Embeds `RateLimitLoginMiddleware._reset_attempts`: delete both
cache keys for the IP. -/
def reset_attempts (c : CacheState) (ip_address : String) : CacheState :=
  { attempts := fun x => if x = ip_address then 0 else c.attempts x
    locked := fun x => if x = ip_address then false else c.locked x }

/-- Outcome of one request through `RateLimitLoginMiddleware`:
the HTTP status and whether the wrapped view (`get_response`, which
performs credential verification) was invoked at all. -/
structure MWResult where
  status : Nat
  handlerCalled : Bool
deriving DecidableEq, Repr

/-- Embeds `RateLimitLoginMiddleware.__call__` for a POST to the
login path: a locked IP is answered 429 without invoking the inner
handler; otherwise the handler runs and a 200 resets the counters
while a 400/401/403 increments them. -/
def rate_limit_login_call {σ : Type} (ip_address : String) (inner : σ → Nat × σ)
    (c : CacheState) (s : σ) : MWResult × CacheState × σ :=
  if is_locked_out c ip_address then
    ({ status := 429, handlerCalled := false }, c, s)
  else
    let res := inner s
    let c1 :=
      if res.1 = 200 then reset_attempts c ip_address
      else if res.1 = 400 ∨ res.1 = 401 ∨ res.1 = 403 then increment_attempts c ip_address
      else c
    ({ status := res.1, handlerCalled := true }, c1, res.2)

/-- Durable state touched by `LoginView.post`: the token-engine
tables plus the `LoginAttempt` audit rows. -/
structure LoginDB where
  db : DBState
  loginAttempts : List LoginAttemptRow
deriving DecidableEq, Repr

/-- Python `str.strip()` on the whitespace kinds relevant here,
implemented structurally over the character list. -/
def py_strip (s : String) : String :=
  String.mk (((s.data.dropWhile Char.isWhitespace).reverse.dropWhile Char.isWhitespace).reverse)

/-- Python `str.lower()` (ASCII case folding), implemented
structurally over the character list. -/
def py_lower (s : String) : String :=
  String.mk (s.data.map Char.toLower)

/-- Embeds `LoginView._check_account_status`: pending, rejected and
suspended accounts may not log in; any other status passes. -/
def check_account_status (user : User) : Option String :=
  if user.status = "pending" then some "account_pending"
  else if user.status = "rejected" then some "account_rejected"
  else if user.status = "suspended" then some "account_suspended"
  else none

/-- Embeds `LoginView.post` (`views.py`).  The external credential
check (`django.contrib.auth.authenticate`) is supplied as
`credUser`: `none` for wrong credentials, `some user` for a match.
Returns the HTTP status and the updated state; 200 issues tokens and
creates a session, every path records a `LoginAttempt` row. -/
def login_post (h : Hash) (rawEmail password : String) (credUser : Option User)
    (req : Request) (refreshJti accessJti sessionId : String) (s : LoginDB) :
    Nat × LoginDB :=
  let email := py_lower (py_strip rawEmail)
  if email = "" ∨ password = "" then (400, s)
  else
    match credUser with
    | none =>
      (401,
       { s with
           loginAttempts := s.loginAttempts ++
             [{ email := email
                ipAddress := get_client_ip req
                userAgent := req.userAgent
                isSuccessful := false
                failureReason := some "invalid_credentials" }] })
    | some user =>
      match check_account_status user with
      | some code =>
        (403,
         { s with
             loginAttempts := s.loginAttempts ++
               [{ email := email
                  ipAddress := get_client_ip req
                  userAgent := req.userAgent
                  isSuccessful := false
                  failureReason := some code }] })
      | none =>
        let s1 : LoginDB :=
          { s with
              loginAttempts := s.loginAttempts ++
                [{ email := email
                   ipAddress := get_client_ip req
                   userAgent := req.userAgent
                   isSuccessful := true
                   failureReason := none }] }
        let issued := issue_tokens h user req refreshJti accessJti sessionId s1.db
        (200, { s1 with db := issued.2 })

/-- One POST to `/api/auth/login/` as processed in production: the
login view wrapped in `RateLimitLoginMiddleware`. -/
def login_request (h : Hash) (rawEmail password : String) (credUser : Option User)
    (req : Request) (refreshJti accessJti sessionId : String)
    (c : CacheState) (s : LoginDB) : MWResult × CacheState × LoginDB :=
  rate_limit_login_call (get_client_ip req)
    (login_post h rawEmail password credUser req refreshJti accessJti sessionId) c s

/-- Commit phase of a rotation: everything
`rotate_refresh_token` does after the first-use check passed, for a
user that was found — insert the `RefreshTokenRotation` row (the
UNIQUE constraint on `old_token_jti` is enforced by the caller),
blacklist the old jti and move the session. -/
def rotateCommit (h : Hash) (old_payload : TokenPayload) (req : Request)
    (user : User) (newRefreshJti : String) (db : DBState) : DBState :=
  let ip_address := get_client_ip req
  let device_fingerprint := get_device_fingerprint h req
  let db1 :=
    { db with
        rotations := db.rotations ++
          [{ userId := user.id
             oldTokenJti := old_payload.jti
             newTokenJti := newRefreshJti
             ipAddress := ip_address
             deviceFingerprint := device_fingerprint }] }
  let db2 := blacklist_jti old_payload.jti user "refresh" "logout" db1
  { db2 with
      sessions := db2.sessions.map
        (fun s =>
          if s.userId == user.id && s.refreshTokenJti == old_payload.jti then
            { s with refreshTokenJti := newRefreshJti }
          else s) }

/-- Outcome of one concurrent `rotate_refresh_token` call.
`integrityError` is the database `IntegrityError` surfaced when the
`RefreshTokenRotation` insert loses the race on the UNIQUE
`old_token_jti` column (the application-level `exists()` check had
already passed). -/
inductive RotOutcome
  | success
  | replayDetected
  | integrityError
  | userNotFound
deriving DecidableEq, Repr

/-- Program counter of one in-flight `rotate_refresh_token` call:
before the `exists()` check, between the check and the ledger
insert, or finished. -/
inductive RotPhase
  | start
  | checked
  | done (o : RotOutcome)
deriving DecidableEq, Repr

/-- Whether a rotation process has finished. -/
def RotPhase.isDone : RotPhase → Bool
  | RotPhase.done _ => true
  | _ => false

/-- One atomic step of process `i` among `n` concurrent
`rotate_refresh_token` calls presenting the same old payload.  The
two atomic database events of a call are the `exists()` check on the
rotation ledger (from `start`) and the uniqueness-guarded ledger
insert together with its follow-up writes (from `checked`).  A
finished process does nothing. -/
def rotStep {n : Nat} (h : Hash) (old_payload : TokenPayload) (req : Request)
    (newR : Fin n → String) (i : Fin n)
    (st : (Fin n → RotPhase) × DBState) : (Fin n → RotPhase) × DBState :=
  match st.1 i with
  | RotPhase.done _ => st
  | RotPhase.start =>
    if hasRotation st.2 old_payload.jti then
      match findUser st.2 old_payload.userId with
      | none => (Function.update st.1 i (RotPhase.done RotOutcome.userNotFound), st.2)
      | some user =>
        (Function.update st.1 i (RotPhase.done RotOutcome.replayDetected),
         (revoke_all_user_tokens user "token_reuse" st.2).2)
    else (Function.update st.1 i RotPhase.checked, st.2)
  | RotPhase.checked =>
    match findUser st.2 old_payload.userId with
    | none => (Function.update st.1 i (RotPhase.done RotOutcome.userNotFound), st.2)
    | some user =>
      if hasRotation st.2 old_payload.jti then
        (Function.update st.1 i (RotPhase.done RotOutcome.integrityError), st.2)
      else
        (Function.update st.1 i (RotPhase.done RotOutcome.success),
         rotateCommit h old_payload req user (newR i) st.2)

/-- Run an interleaving (a schedule of process indices) of `n`
concurrent rotations from an initial shared state. -/
def runSchedule {n : Nat} (h : Hash) (old_payload : TokenPayload) (req : Request)
    (newR : Fin n → String) (sch : List (Fin n))
    (st : (Fin n → RotPhase) × DBState) : (Fin n → RotPhase) × DBState :=
  sch.foldl (fun acc i => rotStep h old_payload req newR i acc) st

/-- Invariant of the concurrent-rotation system: the user table is
untouched, no process can have finished while the ledger has no row
for the contested jti, and once the ledger row exists exactly one
process has succeeded. -/
def RotInv {n : Nat} (p : TokenPayload) (db0 : DBState)
    (st : (Fin n → RotPhase) × DBState) : Prop :=
  st.2.users = db0.users ∧
  (hasRotation st.2 p.jti = false →
    ∀ i, st.1 i = RotPhase.start ∨ st.1 i = RotPhase.checked) ∧
  (hasRotation st.2 p.jti = true →
    ∃! i, st.1 i = RotPhase.done RotOutcome.success)

/-- Number of blacklist rows for a given jti. -/
def countBlacklisted (db : DBState) (jti : String) : Nat :=
  db.blacklist.countP (fun e => e.tokenJti == jti)

/-- Iterated `TokenService.revoke_token` on the same jti. -/
def iterate_revoke (n : Nat) (token_jti : String) (user : User)
    (token_type reason : String) (db : DBState) : DBState :=
  match n with
  | 0 => db
  | Nat.succ m =>
    revoke_token token_jti user token_type reason
      (iterate_revoke m token_jti user token_type reason db)

/-- Iterated failed login (wrong credentials) through the rate-limit
middleware, threading cache and database state. -/
def iterate_failed_logins (h : Hash) (rawEmail password : String) (req : Request)
    (refreshJti accessJti sessionId : String) :
    Nat → CacheState → LoginDB → CacheState × LoginDB
  | 0, c, s => (c, s)
  | Nat.succ m, c, s =>
    let prev := iterate_failed_logins h rawEmail password req refreshJti accessJti sessionId m c s
    let res := login_request h rawEmail password none req refreshJti accessJti sessionId prev.1 prev.2
    (res.2.1, res.2.2)

/-- Concrete injective-on-our-inputs stand-in hash used by witnesses
and counterexamples. -/
def cH : Hash := fun s => String.append "#" s

/-- Concrete request used by witnesses and counterexamples. -/
def cReq : Request :=
  { userAgent := "Moz"
    acceptLanguage := "en"
    acceptEncoding := "gzip"
    xForwardedFor := none
    remoteAddr := "203.0.113.7" }

/-- Concrete active user. -/
def cUser : User :=
  { id := 1
    email := "user@example.com"
    role := "agent"
    permissionsList := []
    branchId := none
    tokenVersion := 0
    status := "active" }

/-- Concrete user stuck in the pending account state. -/
def cPendingUser : User :=
  { id := 2
    email := "pending@example.com"
    role := "manager"
    permissionsList := []
    branchId := none
    tokenVersion := 0
    status := "pending" }

/-- Initial database: one active user, no tokens. -/
def cDb0 : DBState :=
  { users := [cUser], rotations := [], blacklist := [], sessions := [] }

/-- Login of `cUser`: the pair T0 and its session. -/
def cIssue : IssueResult × DBState :=
  issue_tokens cH cUser cReq "r0" "a0" "s0" cDb0

/-- First (legitimate) rotation of T0.refresh, producing T1. -/
def cRot1 : Except RotateError TokenPair × DBState :=
  rotate_refresh_token cH cIssue.1.refresh cReq "r1" "a1" cIssue.2

/-- The successor pair T1 from the first rotation. -/
def cPair1 : TokenPair :=
  match cRot1.1 with
  | Except.ok p => p
  | Except.error _ => { access := cIssue.1.access, refresh := cIssue.1.refresh }

/-- Replayed rotation of T0.refresh after it was already rotated. -/
def cRot2 : Except RotateError TokenPair × DBState :=
  rotate_refresh_token cH cIssue.1.refresh cReq "r2" "a2" cRot1.2

/-- Concrete user whose password epoch moved to 2 while a refresh
token minted at epoch 0 is still in circulation. -/
def c3User : User :=
  { id := 3
    email := "stale@example.com"
    role := "agent"
    permissionsList := []
    branchId := none
    tokenVersion := 2
    status := "active" }

/-- Database holding only `c3User`. -/
def c3Db : DBState :=
  { users := [c3User], rotations := [], blacklist := [], sessions := [] }

/-- Refresh payload for `c3User` carrying the stale epoch 0. -/
def c3Payload : TokenPayload :=
  { jti := "rStale"
    userId := 3
    tokenType := "refresh"
    tokenVersion := some 0
    deviceFp := none
    ipHash := none
    role := ""
    permissions := []
    branchId := none }

/-- Database after `cUser`'s password epoch was incremented. -/
def c4Db : DBState :=
  { users := [increment_token_version cUser]
    rotations := []
    blacklist := []
    sessions := [] }

/-- Access payload minted for `cUser` before the epoch increment. -/
def c4OldPayload : TokenPayload :=
  { jti := "aOld"
    userId := 1
    tokenType := "access"
    tokenVersion := some cUser.tokenVersion
    deviceFp := none
    ipHash := none
    role := "agent"
    permissions := []
    branchId := none }

/-- Empty rate-limit cache: no counters, no lockouts. -/
def cEmptyCache : CacheState :=
  { attempts := fun _ => 0, locked := fun _ => false }

/-- Empty login-side database. -/
def cEmptyLoginDB : LoginDB :=
  { db := cDb0, loginAttempts := [] }

/-- Access payload for `cUser` carrying no device fingerprint. -/
def c8NoFpPayload : TokenPayload :=
  { jti := "a8"
    userId := 1
    tokenType := "access"
    tokenVersion := some 0
    deviceFp := none
    ipHash := none
    role := "agent"
    permissions := []
    branchId := none }

/-- Access payload for `cUser` bound to the fingerprint "otherDevice". -/
def c8FpPayload : TokenPayload :=
  { c8NoFpPayload with jti := "a8f", deviceFp := some (cH "otherDevice") }

/-- Access payload for `cUser` carrying the IP hash of a different
network than `cReq`'s. -/
def c9Payload : TokenPayload :=
  { c8NoFpPayload with jti := "a9", ipHash := some (cH "198.51.100.4") }

/-- Refresh payload for `cUser` used by the single-use rotation
witness. -/
def c1Payload : TokenPayload :=
  { jti := "rFirst"
    userId := 1
    tokenType := "refresh"
    tokenVersion := some 0
    deviceFp := some (cH (get_device_fingerprint cH cReq))
    ipHash := some (cH "203.0.113.7")
    role := ""
    permissions := []
    branchId := none }

/-! Helper lemmas about the blacklist store. -/

theorem blacklist_jti_users (jti : String) (u : User) (t r : String) (db : DBState) :
    (blacklist_jti jti u t r db).users = db.users := by
  unfold blacklist_jti
  split <;> rfl

theorem blacklist_jti_rotations (jti : String) (u : User) (t r : String) (db : DBState) :
    (blacklist_jti jti u t r db).rotations = db.rotations := by
  unfold blacklist_jti
  split <;> rfl

theorem blacklist_jti_sessions (jti : String) (u : User) (t r : String) (db : DBState) :
    (blacklist_jti jti u t r db).sessions = db.sessions := by
  unfold blacklist_jti
  split <;> rfl

theorem inBlacklist_blacklist_jti (jti : String) (u : User) (t r : String) (db : DBState)
    (j : String) :
    inBlacklist (blacklist_jti jti u t r db) j = (inBlacklist db j || (jti == j)) := by
  unfold blacklist_jti
  split
  · rename_i hin
    cases hj : (jti == j) with
    | false => simp
    | true =>
      have hjj : jti = j := by simpa using hj
      subst hjj
      simp [hin]
  · simp [inBlacklist, List.any_append]

theorem countBlacklisted_blacklist_jti (jti : String) (u : User) (t r : String)
    (db : DBState) (j : String) :
    countBlacklisted (blacklist_jti jti u t r db) j =
      if inBlacklist db jti then countBlacklisted db j
      else countBlacklisted db j + (if (jti == j) then 1 else 0) := by
  unfold blacklist_jti
  split
  · rfl
  · simp [countBlacklisted, List.countP_append, List.countP_cons]

theorem inBlacklist_false_countBlacklisted (db : DBState) (j : String)
    (hnot : inBlacklist db j = false) : countBlacklisted db j = 0 := by
  unfold inBlacklist at hnot
  unfold countBlacklisted
  rw [List.countP_eq_zero]
  intro e he
  exact List.any_eq_false.mp hnot e he

theorem inBlacklist_true_countBlacklisted (db : DBState) (j : String)
    (hin : inBlacklist db j = true) : 0 < countBlacklisted db j := by
  unfold inBlacklist at hin
  unfold countBlacklisted
  rw [List.countP_pos_iff]
  exact List.any_eq_true.mp hin

theorem countBlacklisted_revoke_token (jti : String) (u : User) (t r : String)
    (db : DBState) (j : String) :
    countBlacklisted (revoke_token jti u t r db) j =
      countBlacklisted (blacklist_jti jti u t r db) j := by
  unfold revoke_token
  split <;> rfl

/-- After one `revoke_token` on a state where the unique constraint
holds (at most one row for the jti), exactly one row exists. -/
theorem countBlacklisted_revoke_token_eq_one (jti : String) (u : User) (t r : String)
    (db : DBState) (hle : countBlacklisted db jti ≤ 1) :
    countBlacklisted (revoke_token jti u t r db) jti = 1 := by
  rw [countBlacklisted_revoke_token, countBlacklisted_blacklist_jti]
  cases hin : inBlacklist db jti with
  | true =>
    simp only [if_pos]
    have h1 := inBlacklist_true_countBlacklisted db jti hin
    omega
  | false =>
    simp only [Bool.false_eq_true, if_false, beq_self_eq_true, if_pos]
    have h0 := inBlacklist_false_countBlacklisted db jti hin
    omega

/-- C5: Revoke is idempotent — calling `revoke_token` any positive
number of times with the same jti (the operation is total, so it
never errors) leaves exactly one `TokenBlacklist` row for that jti,
starting from any state respecting the unique constraint on
`token_jti` (at most one row). -/
theorem c5_idempotent_revocation (n : Nat) (jti : String) (u : User) (t r : String)
    (db : DBState) (hn : 1 ≤ n) (hle : countBlacklisted db jti ≤ 1) :
    countBlacklisted (iterate_revoke n jti u t r db) jti = 1 := by
  induction n with
  | zero => omega
  | succ m ih =>
    cases Nat.eq_or_lt_of_le (Nat.zero_le m) with
    | inl hm0 =>
      have : m = 0 := hm0.symm
      subst this
      exact countBlacklisted_revoke_token_eq_one jti u t r db hle
    | inr hmpos =>
      have hm1 : 1 ≤ m := hmpos
      have hmid := ih hm1
      exact countBlacklisted_revoke_token_eq_one jti u t r _ (by omega)

/-- Witness for C5 at a concrete input: three revocations of a fresh
jti leave exactly one blacklist row. -/
theorem c5_witness :
    1 ≤ 3 ∧ countBlacklisted cDb0 "jX" ≤ 1 ∧
      countBlacklisted (iterate_revoke 3 "jX" cUser "refresh" "logout" cDb0) "jX" = 1 :=
  ⟨by decide, by decide,
   c5_idempotent_revocation 3 "jX" cUser "refresh" "logout" cDb0 (by decide) (by decide)⟩

/-- C4: epoch invalidation — once the user's `token_version` has been
incremented, any token minted before the increment (it carries the
old version) is rejected by the authentication gate with
`token_version_mismatch`, while the tokens issued after the increment
carry the new version and pass the epoch check. -/
theorem c4_epoch_invalidation (h : Hash) (req : Request) (db : DBState)
    (user : User) (p : TokenPayload) (jR jA sid : String)
    (hjti : ¬ p.jti = "")
    (hbl : inBlacklist db p.jti = false)
    (hfind : findUser db p.userId = some (increment_token_version user))
    (hold : p.tokenVersion = some user.tokenVersion) :
    authenticate h p req db = Except.error AuthError.tokenVersionMismatch
    ∧ TokenVersionValidator_validate
        (issue_tokens h (increment_token_version user) req jR jA sid db).1.access
        (increment_token_version user) = none
    ∧ TokenVersionValidator_validate
        (issue_tokens h (increment_token_version user) req jR jA sid db).1.refresh
        (increment_token_version user) = none := by
  refine ⟨?_, ?_, ?_⟩
  · simp only [authenticate, BlacklistValidator_validate, hbl, if_neg hjti, hfind,
      Bool.false_eq_true, if_false]
    simp only [TokenVersionValidator_validate, hold, increment_token_version]
    have hne : (user.tokenVersion != user.tokenVersion + 1) = true := by
      simp [bne_iff_ne]
    simp [hne]
  · simp [issue_tokens, enrich_access_token, refresh_access_token,
      CustomRefreshToken_for_user_with_context, TokenVersionValidator_validate]
  · simp [issue_tokens, enrich_access_token, refresh_access_token,
      CustomRefreshToken_for_user_with_context, TokenVersionValidator_validate]

/-- Witness for C4: after `cUser`'s epoch moves from 0 to 1, the old
access token is rejected with `token_version_mismatch` and a freshly
issued access token passes the epoch check. -/
theorem c4_witness :
    (¬ c4OldPayload.jti = "")
    ∧ inBlacklist c4Db c4OldPayload.jti = false
    ∧ findUser c4Db c4OldPayload.userId = some (increment_token_version cUser)
    ∧ c4OldPayload.tokenVersion = some cUser.tokenVersion
    ∧ authenticate cH c4OldPayload cReq c4Db = Except.error AuthError.tokenVersionMismatch
    ∧ TokenVersionValidator_validate
        (issue_tokens cH (increment_token_version cUser) cReq "rN" "aN" "sN" c4Db).1.access
        (increment_token_version cUser) = none :=
  ⟨by decide, by decide, by decide, by decide,
   (c4_epoch_invalidation cH cReq c4Db cUser c4OldPayload "rN" "aN" "sN"
      (by decide) (by decide) (by decide) (by decide)).1,
   (c4_epoch_invalidation cH cReq c4Db cUser c4OldPayload "rN" "aN" "sN"
      (by decide) (by decide) (by decide) (by decide)).2.1⟩

/-- C8: device tolerance — with all earlier gate checks passing, a
token carrying no `device_fp` claim is accepted whatever the request
fingerprint is, while a token carrying the hash of fingerprint F1 is
rejected with `device_fingerprint_mismatch` whenever the request's
fingerprint hashes differently (the nonempty-hash hypothesis mirrors
the Python falsiness test on the stored claim: a real SHA-256 digest
is never the empty string). -/
theorem c8_device_tolerance (h : Hash) (req : Request) (db : DBState)
    (user : User) (p : TokenPayload)
    (hjti : ¬ p.jti = "")
    (hbl : inBlacklist db p.jti = false)
    (hfind : findUser db p.userId = some user)
    (hver : TokenVersionValidator_validate p user = none) :
    (p.deviceFp = none →
      ∃ b, authenticate h p req db = Except.ok { user := user, ipChangeLogged := b })
    ∧ (∀ f1, p.deviceFp = some (h f1) → ¬ h f1 = "" →
        ¬ h (get_device_fingerprint h req) = h f1 →
        authenticate h p req db = Except.error AuthError.deviceFingerprintMismatch) := by
  constructor
  · intro hfp
    refine ⟨!(IPValidator_validate h p (get_client_ip req)), ?_⟩
    simp only [authenticate, BlacklistValidator_validate, hbl, if_neg hjti,
      Bool.false_eq_true, if_false, hfind, hver, DeviceValidator_validate, hfp]
  · intro f1 hfp hne hnehash
    have hbne : (h f1 != h (get_device_fingerprint h req)) = true := by
      rw [bne_iff_ne]
      intro hh
      exact hnehash hh.symm
    simp only [authenticate, BlacklistValidator_validate, hbl, if_neg hjti,
      Bool.false_eq_true, if_false, hfind, hver, DeviceValidator_validate, hfp,
      if_neg hne, hbne, if_true]

/-- Witness for C8 at concrete inputs: the fingerprint-free token is
accepted, the token bound to "otherDevice" is rejected from `cReq`. -/
theorem c8_witness :
    ((¬ c8NoFpPayload.jti = "") ∧ inBlacklist cDb0 c8NoFpPayload.jti = false
      ∧ findUser cDb0 c8NoFpPayload.userId = some cUser
      ∧ TokenVersionValidator_validate c8NoFpPayload cUser = none
      ∧ ∃ b, authenticate cH c8NoFpPayload cReq cDb0
          = Except.ok { user := cUser, ipChangeLogged := b })
    ∧ ((¬ c8FpPayload.jti = "")
      ∧ c8FpPayload.deviceFp = some (cH "otherDevice")
      ∧ (¬ cH "otherDevice" = "")
      ∧ (¬ cH (get_device_fingerprint cH cReq) = cH "otherDevice")
      ∧ authenticate cH c8FpPayload cReq cDb0
          = Except.error AuthError.deviceFingerprintMismatch) :=
  ⟨⟨by decide, by decide, by decide, by decide,
    (c8_device_tolerance cH cReq cDb0 cUser c8NoFpPayload
      (by decide) (by decide) (by decide) (by decide)).1 (by decide)⟩,
   ⟨by decide, by decide, by decide, by decide,
    (c8_device_tolerance cH cReq cDb0 cUser c8FpPayload
      (by decide) (by decide) (by decide) (by decide)).2 "otherDevice"
      (by decide) (by decide) (by decide)⟩⟩

/-- C9: the IP check is observational only — whenever the enforcing
checks (jti, blacklist, user, version, device) pass, the gate
resolves the user regardless of the IP comparison, which at most
raises the security-log flag; in particular a token whose stored
`ip_hash` differs from the hash of the current request IP is accepted
with the log event emitted. -/
theorem c9_ip_mismatch_not_enforcing (h : Hash) (req : Request) (db : DBState)
    (user : User) (p : TokenPayload)
    (hjti : ¬ p.jti = "")
    (hbl : inBlacklist db p.jti = false)
    (hfind : findUser db p.userId = some user)
    (hver : TokenVersionValidator_validate p user = none)
    (hdev : DeviceValidator_validate h p (get_device_fingerprint h req) = none) :
    authenticate h p req db
      = Except.ok { user := user,
                    ipChangeLogged := !(IPValidator_validate h p (get_client_ip req)) }
    ∧ (∀ s, p.ipHash = some s → ¬ s = "" → ¬ s = h (get_client_ip req) →
        authenticate h p req db = Except.ok { user := user, ipChangeLogged := true }) := by
  have hmain : authenticate h p req db
      = Except.ok { user := user,
                    ipChangeLogged := !(IPValidator_validate h p (get_client_ip req)) } := by
    simp only [authenticate, BlacklistValidator_validate, hbl, if_neg hjti,
      Bool.false_eq_true, if_false, hfind, hver, hdev]
  refine ⟨hmain, ?_⟩
  intro s hip hne hnehash
  have hval : IPValidator_validate h p (get_client_ip req) = false := by
    simp only [IPValidator_validate, hip, if_neg hne]
    rw [beq_eq_false_iff_ne]
    exact hnehash
  rw [hmain, hval]
  rfl

/-- Witness for C9: a token whose `ip_hash` was minted for another
network is still accepted from `cReq`, with the IP-change log flag
set. -/
theorem c9_witness :
    (¬ c9Payload.jti = "") ∧ inBlacklist cDb0 c9Payload.jti = false
    ∧ findUser cDb0 c9Payload.userId = some cUser
    ∧ TokenVersionValidator_validate c9Payload cUser = none
    ∧ DeviceValidator_validate cH c9Payload (get_device_fingerprint cH cReq) = none
    ∧ c9Payload.ipHash = some (cH "198.51.100.4")
    ∧ (¬ cH "198.51.100.4" = cH (get_client_ip cReq))
    ∧ authenticate cH c9Payload cReq cDb0
        = Except.ok { user := cUser, ipChangeLogged := true } :=
  ⟨by decide, by decide, by decide, by decide, by decide, by decide, by decide,
   (c9_ip_mismatch_not_enforcing cH cReq cDb0 cUser c9Payload
      (by decide) (by decide) (by decide) (by decide) (by decide)).2
     (cH "198.51.100.4") (by decide) (by decide) (by decide)⟩

/-! Helper lemmas about the rate-limit cache and the login pipeline. -/

theorem increment_attempts_attempts_self (c : CacheState) (ip : String) :
    (increment_attempts c ip).attempts ip = c.attempts ip + 1 := by
  simp only [increment_attempts]
  split <;> simp

theorem increment_attempts_locked_self (c : CacheState) (ip : String) :
    (increment_attempts c ip).locked ip
      = (if c.attempts ip + 1 ≥ MAX_LOGIN_ATTEMPTS then true else c.locked ip) := by
  simp only [increment_attempts]
  split <;> rename_i hcond
  · simp [hcond]
  · simp [hcond]

theorem reset_attempts_attempts_self (c : CacheState) (ip : String) :
    (reset_attempts c ip).attempts ip = 0 := by
  simp [reset_attempts]

theorem reset_attempts_locked_self (c : CacheState) (ip : String) :
    (reset_attempts c ip).locked ip = false := by
  simp [reset_attempts]

theorem login_post_none_status (h : Hash) (rawEmail password : String) (req : Request)
    (r a sid : String) (s : LoginDB)
    (hemail : ¬ py_lower (py_strip rawEmail) = "") (hpw : ¬ password = "") :
    (login_post h rawEmail password none req r a sid s).1 = 401 := by
  simp [login_post, hemail, hpw]

theorem login_post_status_blocked (h : Hash) (rawEmail password : String) (user : User)
    (req : Request) (r a sid : String) (s : LoginDB) (code : String)
    (hemail : ¬ py_lower (py_strip rawEmail) = "") (hpw : ¬ password = "")
    (hstatus : check_account_status user = some code) :
    login_post h rawEmail password (some user) req r a sid s
      = (403,
         { s with
             loginAttempts := s.loginAttempts ++
               [{ email := py_lower (py_strip rawEmail)
                  ipAddress := get_client_ip req
                  userAgent := req.userAgent
                  isSuccessful := false
                  failureReason := some code }] }) := by
  simp [login_post, hemail, hpw, hstatus]

theorem login_post_some_status (h : Hash) (rawEmail password : String) (user : User)
    (req : Request) (r a sid : String) (s : LoginDB)
    (hemail : ¬ py_lower (py_strip rawEmail) = "") (hpw : ¬ password = "")
    (hstatus : check_account_status user = none) :
    (login_post h rawEmail password (some user) req r a sid s).1 = 200 := by
  simp [login_post, hemail, hpw, hstatus]

theorem login_request_none_cache (h : Hash) (rawEmail password : String) (req : Request)
    (r a sid : String) (c : CacheState) (s : LoginDB)
    (hemail : ¬ py_lower (py_strip rawEmail) = "") (hpw : ¬ password = "")
    (hnl : c.locked (get_client_ip req) = false) :
    (login_request h rawEmail password none req r a sid c s).2.1
      = increment_attempts c (get_client_ip req) := by
  have hst := login_post_none_status h rawEmail password req r a sid s hemail hpw
  simp [login_request, rate_limit_login_call, is_locked_out, hnl, hst]

theorem iterate_failed_logins_state (h : Hash) (rawEmail password : String)
    (req : Request) (r a sid : String) (c : CacheState) (s : LoginDB)
    (hemail : ¬ py_lower (py_strip rawEmail) = "") (hpw : ¬ password = "")
    (h0 : c.attempts (get_client_ip req) = 0)
    (hnl : c.locked (get_client_ip req) = false) :
    ∀ k, k ≤ MAX_LOGIN_ATTEMPTS →
      (iterate_failed_logins h rawEmail password req r a sid k c s).1.attempts
          (get_client_ip req) = k
      ∧ (iterate_failed_logins h rawEmail password req r a sid k c s).1.locked
          (get_client_ip req) = decide (k ≥ MAX_LOGIN_ATTEMPTS) := by
  intro k
  induction k with
  | zero =>
    intro _
    refine ⟨h0, ?_⟩
    show c.locked (get_client_ip req) = decide (0 ≥ MAX_LOGIN_ATTEMPTS)
    rw [hnl]
    decide
  | succ m ih =>
    intro hk
    have hm : m ≤ MAX_LOGIN_ATTEMPTS := Nat.le_of_succ_le hk
    have hmlt : m < MAX_LOGIN_ATTEMPTS := hk
    obtain ⟨ha, hl⟩ := ih hm
    have hlf : (iterate_failed_logins h rawEmail password req r a sid m c s).1.locked
        (get_client_ip req) = false := by
      rw [hl]
      simp only [decide_eq_false_iff_not]
      omega
    show (login_request h rawEmail password none req r a sid _ _).2.1.attempts _ = _
      ∧ (login_request h rawEmail password none req r a sid _ _).2.1.locked _ = _
    rw [login_request_none_cache h rawEmail password req r a sid _ _ hemail hpw hlf]
    rw [increment_attempts_attempts_self, increment_attempts_locked_self, ha, hlf]
    constructor
    · rfl
    · by_cases hge : m + 1 ≥ MAX_LOGIN_ATTEMPTS
      · rw [if_pos hge]
        simp [hge]
      · rw [if_neg hge]
        simp [hge]

/-- C6: rate-limit lockout and recovery — from a clean window for the
client IP, five consecutive failed logins set the lockout flag; the
sixth attempt is answered 429 without the login view (and hence
credential verification) running at all, whatever its credentials;
and a successful login from a non-locked state resets both the
failure counter and the lockout flag of that IP. -/
theorem c6_rate_limit_lockout (h : Hash) (rawEmail password : String) (req : Request)
    (r a sid : String) (c : CacheState) (s : LoginDB) (user : User)
    (hemail : ¬ py_lower (py_strip rawEmail) = "") (hpw : ¬ password = "")
    (h0 : c.attempts (get_client_ip req) = 0)
    (hnl : c.locked (get_client_ip req) = false) :
    ((iterate_failed_logins h rawEmail password req r a sid MAX_LOGIN_ATTEMPTS c s).1.locked
        (get_client_ip req) = true)
    ∧ (∀ (cred6 : Option User) (e6 pw6 r6 a6 sid6 : String) (s6 : LoginDB),
        (login_request h e6 pw6 cred6 req r6 a6 sid6
            (iterate_failed_logins h rawEmail password req r a sid MAX_LOGIN_ATTEMPTS c s).1
            s6).1
          = { status := 429, handlerCalled := false })
    ∧ (∀ c2 : CacheState, c2.locked (get_client_ip req) = false →
        check_account_status user = none →
        (login_request h rawEmail password (some user) req r a sid c2 s).1.status = 200
        ∧ (login_request h rawEmail password (some user) req r a sid c2 s).2.1.attempts
            (get_client_ip req) = 0
        ∧ (login_request h rawEmail password (some user) req r a sid c2 s).2.1.locked
            (get_client_ip req) = false) := by
  have hlock := (iterate_failed_logins_state h rawEmail password req r a sid c s
    hemail hpw h0 hnl MAX_LOGIN_ATTEMPTS (Nat.le_refl _)).2
  have hlocked : (iterate_failed_logins h rawEmail password req r a sid
      MAX_LOGIN_ATTEMPTS c s).1.locked (get_client_ip req) = true := by
    rw [hlock]
    decide
  refine ⟨hlocked, ?_, ?_⟩
  · intro cred6 e6 pw6 r6 a6 sid6 s6
    simp [login_request, rate_limit_login_call, is_locked_out, hlocked]
  · intro c2 hnl2 hstatus
    have hst := login_post_some_status h rawEmail password user req r a sid s
      hemail hpw hstatus
    refine ⟨?_, ?_, ?_⟩
    · simp [login_request, rate_limit_login_call, is_locked_out, hnl2, hst]
    · simp [login_request, rate_limit_login_call, is_locked_out, hnl2, hst,
        reset_attempts_attempts_self]
    · simp [login_request, rate_limit_login_call, is_locked_out, hnl2, hst,
        reset_attempts_locked_self]

/-- Witness for C6 at concrete inputs: five failed logins from the
empty cache lock `cReq`'s IP, the sixth request bounces with 429 and
no handler call, and a successful login from a clean cache leaves the
counter at 0 and no lockout. -/
theorem c6_witness :
    (¬ py_lower (py_strip "u@x.io") = "") ∧ (¬ ("pw" : String) = "")
    ∧ cEmptyCache.attempts (get_client_ip cReq) = 0
    ∧ cEmptyCache.locked (get_client_ip cReq) = false
    ∧ check_account_status cUser = none
    ∧ ((iterate_failed_logins cH "u@x.io" "pw" cReq "r" "a" "s" MAX_LOGIN_ATTEMPTS
          cEmptyCache cEmptyLoginDB).1.locked (get_client_ip cReq) = true)
    ∧ (login_request cH "u@x.io" "pw" (some cUser) cReq "r" "a" "s"
          (iterate_failed_logins cH "u@x.io" "pw" cReq "r" "a" "s" MAX_LOGIN_ATTEMPTS
            cEmptyCache cEmptyLoginDB).1
          cEmptyLoginDB).1
        = { status := 429, handlerCalled := false }
    ∧ (login_request cH "u@x.io" "pw" (some cUser) cReq "r" "a" "s" cEmptyCache
          cEmptyLoginDB).2.1.attempts (get_client_ip cReq) = 0 :=
  ⟨by decide, by decide, by decide, by decide, by decide,
   (c6_rate_limit_lockout cH "u@x.io" "pw" cReq "r" "a" "s" cEmptyCache cEmptyLoginDB cUser
      (by decide) (by decide) (by decide) (by decide)).1,
   (c6_rate_limit_lockout cH "u@x.io" "pw" cReq "r" "a" "s" cEmptyCache cEmptyLoginDB cUser
      (by decide) (by decide) (by decide) (by decide)).2.1
     (some cUser) "u@x.io" "pw" "r" "a" "s" cEmptyLoginDB,
   ((c6_rate_limit_lockout cH "u@x.io" "pw" cReq "r" "a" "s" cEmptyCache cEmptyLoginDB cUser
      (by decide) (by decide) (by decide) (by decide)).2.2 cEmptyCache
     (by decide) (by decide)).2.1⟩

/-- Counterexample to C7 as stated: a login rejected 403 for account
status `pending` (credentials correct, IP not locked, fresh cache)
does increment the rate limiter's failure counter for the client IP
from 0 to 1 — `RateLimitLoginMiddleware` counts every 400/401/403
response on the login path, account-status failures included.  The
`LoginAttempt` audit row part of the claim does hold. -/
theorem c7_counterexample :
    check_account_status cPendingUser = some "account_pending"
    ∧ cEmptyCache.attempts (get_client_ip cReq) = 0
    ∧ cEmptyCache.locked (get_client_ip cReq) = false
    ∧ (login_request cH "u@x.io" "pw" (some cPendingUser) cReq "r0" "a0" "s0"
        cEmptyCache cEmptyLoginDB).1.status = 403
    ∧ (login_request cH "u@x.io" "pw" (some cPendingUser) cReq "r0" "a0" "s0"
        cEmptyCache cEmptyLoginDB).2.1.attempts (get_client_ip cReq) = 1
    ∧ (login_request cH "u@x.io" "pw" (some cPendingUser) cReq "r0" "a0" "s0"
        cEmptyCache cEmptyLoginDB).2.2.loginAttempts
      = [{ email := "u@x.io"
           ipAddress := get_client_ip cReq
           userAgent := cReq.userAgent
           isSuccessful := false
           failureReason := some "account_pending" }] := by
  decide

/-- C7 amended: a login attempt failing on account status
(`account_pending` / `account_rejected` / `account_suspended`) is
answered 403, records the `LoginAttempt` audit row with that reason,
and — unlike what the claim states — increments the rate limiter's
failure counter for the client IP exactly as a credential failure
does, setting the lockout flag when the threshold is reached. -/
theorem c7_account_status_counts (h : Hash) (rawEmail password : String) (user : User)
    (req : Request) (r a sid : String) (c : CacheState) (s : LoginDB) (code : String)
    (hemail : ¬ py_lower (py_strip rawEmail) = "") (hpw : ¬ password = "")
    (hstatus : check_account_status user = some code)
    (hnl : c.locked (get_client_ip req) = false) :
    (login_request h rawEmail password (some user) req r a sid c s).1.status = 403
    ∧ (login_request h rawEmail password (some user) req r a sid c s).2.1.attempts
        (get_client_ip req) = c.attempts (get_client_ip req) + 1
    ∧ (login_request h rawEmail password (some user) req r a sid c s).2.1.locked
        (get_client_ip req)
      = (if c.attempts (get_client_ip req) + 1 ≥ MAX_LOGIN_ATTEMPTS then true
         else c.locked (get_client_ip req))
    ∧ (login_request h rawEmail password (some user) req r a sid c s).2.2.loginAttempts
      = s.loginAttempts ++
          [{ email := py_lower (py_strip rawEmail)
             ipAddress := get_client_ip req
             userAgent := req.userAgent
             isSuccessful := false
             failureReason := some code }] := by
  have hpost := login_post_status_blocked h rawEmail password user req r a sid s code
    hemail hpw hstatus
  refine ⟨?_, ?_, ?_, ?_⟩
  · simp [login_request, rate_limit_login_call, is_locked_out, hnl, hpost]
  · simp [login_request, rate_limit_login_call, is_locked_out, hnl, hpost,
      increment_attempts_attempts_self]
  · simp [login_request, rate_limit_login_call, is_locked_out, hnl, hpost,
      increment_attempts_locked_self]
  · simp [login_request, rate_limit_login_call, is_locked_out, hnl, hpost]

/-- Witness for the amended C7 at concrete inputs. -/
theorem c7_witness :
    (¬ py_lower (py_strip "u@x.io") = "") ∧ (¬ ("pw" : String) = "")
    ∧ check_account_status cPendingUser = some "account_pending"
    ∧ cEmptyCache.locked (get_client_ip cReq) = false
    ∧ (login_request cH "u@x.io" "pw" (some cPendingUser) cReq "r0" "a0" "s0"
        cEmptyCache cEmptyLoginDB).1.status = 403
    ∧ (login_request cH "u@x.io" "pw" (some cPendingUser) cReq "r0" "a0" "s0"
        cEmptyCache cEmptyLoginDB).2.1.attempts (get_client_ip cReq)
      = cEmptyCache.attempts (get_client_ip cReq) + 1 :=
  ⟨by decide, by decide, by decide, by decide,
   (c7_account_status_counts cH "u@x.io" "pw" cPendingUser cReq "r0" "a0" "s0"
      cEmptyCache cEmptyLoginDB "account_pending"
      (by decide) (by decide) (by decide) (by decide)).1,
   (c7_account_status_counts cH "u@x.io" "pw" cPendingUser cReq "r0" "a0" "s0"
      cEmptyCache cEmptyLoginDB "account_pending"
      (by decide) (by decide) (by decide) (by decide)).2.1⟩

/-! Helper lemmas about bulk revocation and the rotation commit. -/

theorem foldl_blacklist_users (l : List Session) (u : User) (r : String) (db : DBState) :
    (l.foldl (fun acc s => blacklist_jti s.refreshTokenJti u "refresh" r acc) db).users
      = db.users := by
  induction l generalizing db with
  | nil => rfl
  | cons s l ih => rw [List.foldl_cons, ih, blacklist_jti_users]

theorem foldl_blacklist_rotations (l : List Session) (u : User) (r : String) (db : DBState) :
    (l.foldl (fun acc s => blacklist_jti s.refreshTokenJti u "refresh" r acc) db).rotations
      = db.rotations := by
  induction l generalizing db with
  | nil => rfl
  | cons s l ih => rw [List.foldl_cons, ih, blacklist_jti_rotations]

theorem foldl_blacklist_sessions (l : List Session) (u : User) (r : String) (db : DBState) :
    (l.foldl (fun acc s => blacklist_jti s.refreshTokenJti u "refresh" r acc) db).sessions
      = db.sessions := by
  induction l generalizing db with
  | nil => rfl
  | cons s l ih => rw [List.foldl_cons, ih, blacklist_jti_sessions]

theorem foldl_blacklist_inBlacklist (l : List Session) (u : User) (r : String)
    (db : DBState) (j : String) :
    inBlacklist (l.foldl (fun acc s => blacklist_jti s.refreshTokenJti u "refresh" r acc) db) j
      = (inBlacklist db j || l.any (fun s => s.refreshTokenJti == j)) := by
  induction l generalizing db with
  | nil => simp
  | cons s l ih =>
    rw [List.foldl_cons, ih, inBlacklist_blacklist_jti]
    simp [Bool.or_assoc]

theorem revoke_all_users (u : User) (r : String) (db : DBState) :
    (revoke_all_user_tokens u r db).2.users = db.users := by
  show ((db.sessions.filter (fun s => s.userId == u.id)).foldl
      (fun acc s => blacklist_jti s.refreshTokenJti u "refresh" r acc) db).users = db.users
  exact foldl_blacklist_users _ _ _ _

theorem revoke_all_rotations (u : User) (r : String) (db : DBState) :
    (revoke_all_user_tokens u r db).2.rotations = db.rotations := by
  show ((db.sessions.filter (fun s => s.userId == u.id)).foldl
      (fun acc s => blacklist_jti s.refreshTokenJti u "refresh" r acc) db).rotations
    = db.rotations
  exact foldl_blacklist_rotations _ _ _ _

theorem revoke_all_sessions (u : User) (r : String) (db : DBState) :
    (revoke_all_user_tokens u r db).2.sessions
      = db.sessions.filter (fun s => !(s.userId == u.id)) := by
  show ((db.sessions.filter (fun s => s.userId == u.id)).foldl
      (fun acc s => blacklist_jti s.refreshTokenJti u "refresh" r acc) db).sessions.filter
        (fun s => !(s.userId == u.id))
    = db.sessions.filter (fun s => !(s.userId == u.id))
  rw [foldl_blacklist_sessions]

theorem revoke_all_inBlacklist (u : User) (r : String) (db : DBState) (j : String) :
    inBlacklist (revoke_all_user_tokens u r db).2 j
      = (inBlacklist db j
         || (db.sessions.filter (fun s => s.userId == u.id)).any
              (fun s => s.refreshTokenJti == j)) := by
  show inBlacklist ((db.sessions.filter (fun s => s.userId == u.id)).foldl
      (fun acc s => blacklist_jti s.refreshTokenJti u "refresh" r acc) db) j = _
  exact foldl_blacklist_inBlacklist _ _ _ _ _

theorem hasRotation_congr (db db' : DBState) (j : String)
    (hrot : db'.rotations = db.rotations) : hasRotation db' j = hasRotation db j := by
  unfold hasRotation
  rw [hrot]

theorem findUser_congr (db db' : DBState) (uid : Nat)
    (hus : db'.users = db.users) : findUser db' uid = findUser db uid := by
  unfold findUser
  rw [hus]

theorem rotateCommit_users (h : Hash) (p : TokenPayload) (req : Request) (u : User)
    (nj : String) (db : DBState) : (rotateCommit h p req u nj db).users = db.users := by
  simp [rotateCommit, blacklist_jti_users]

theorem hasRotation_rotateCommit (h : Hash) (p : TokenPayload) (req : Request) (u : User)
    (nj : String) (db : DBState) (j : String) :
    hasRotation (rotateCommit h p req u nj db) j = (hasRotation db j || (p.jti == j)) := by
  simp [rotateCommit, hasRotation, blacklist_jti_rotations, List.any_append]

/-- Counterexample to C3 as stated: a refresh token whose
`token_version` claim (0) differs from its user's current version (2)
still rotates successfully — `rotate_refresh_token` performs no
password-epoch comparison, so no `InvalidToken` failure occurs and a
new pair is returned. -/
theorem c3_counterexample :
    c3Payload.tokenVersion = some 0
    ∧ findUser c3Db c3Payload.userId = some c3User
    ∧ c3User.tokenVersion = 2
    ∧ hasRotation c3Db c3Payload.jti = false
    ∧ (rotate_refresh_token cH c3Payload cReq "rY" "aY" c3Db).1.toOption.isSome = true := by
  decide

/-- C3 amended: during Rotate, after the first-use check succeeds,
the user for the old token's subject is looked up, but the old
token's `password_epoch` is never verified — rotation succeeds for
any `token_version` claim, and the new pair simply carries the user's
current version. -/
theorem c3_rotate_skips_epoch_check (h : Hash) (p : TokenPayload) (req : Request)
    (jR jA : String) (db : DBState) (user : User)
    (hfresh : hasRotation db p.jti = false)
    (hfind : findUser db p.userId = some user) :
    ∃ pair, (rotate_refresh_token h p req jR jA db).1 = Except.ok pair
      ∧ pair.access.tokenVersion = some user.tokenVersion
      ∧ pair.refresh.tokenVersion = some user.tokenVersion := by
  refine ⟨{ access := enrich_access_token
              (refresh_access_token
                (CustomRefreshToken_for_user_with_context h user
                  (get_device_fingerprint h req) (get_client_ip req) jR) jA) user,
            refresh := CustomRefreshToken_for_user_with_context h user
              (get_device_fingerprint h req) (get_client_ip req) jR }, ?_, ?_, ?_⟩
  · simp [rotate_refresh_token, hfresh, hfind]
  · simp [enrich_access_token]
  · simp [CustomRefreshToken_for_user_with_context]

/-- Witness for the amended C3: the stale-epoch payload rotates and
the new pair carries version 2. -/
theorem c3_witness :
    hasRotation c3Db c3Payload.jti = false
    ∧ findUser c3Db c3Payload.userId = some c3User
    ∧ ∃ pair, (rotate_refresh_token cH c3Payload cReq "rY" "aY" c3Db).1 = Except.ok pair
        ∧ pair.access.tokenVersion = some c3User.tokenVersion
        ∧ pair.refresh.tokenVersion = some c3User.tokenVersion :=
  ⟨by decide, by decide,
   c3_rotate_skips_epoch_check cH c3Payload cReq "rY" "aY" c3Db c3User
     (by decide) (by decide)⟩

/-- Counterexample to C10 as stated: issuing tokens for `cReq`
persists an `ActiveSession` row whose `ip_address` column holds the
raw client IP `203.0.113.7` — not its hash (the model's
`GenericIPAddressField` could not even hold a digest). -/
theorem c10_counterexample :
    (issue_tokens cH cUser cReq "r0" "a0" "s0" cDb0).2.sessions.map
        (fun s => s.ipAddress) = ["203.0.113.7"]
    ∧ get_client_ip cReq = "203.0.113.7"
    ∧ (¬ cH "203.0.113.7" = "203.0.113.7") := by
  decide

/-- C10 amended: token payloads only ever carry one-way hashes of the
device fingerprint and the IP, and the persisted Session and
RotationRecord rows store the device fingerprint only in its hashed
form (`get_device_fingerprint` is a SHA-256 digest of the raw
headers) — but both rows persist the client `ip_address` raw, not
hashed. -/
theorem c10_sessions_store_raw_ip (h : Hash) (user : User) (req : Request)
    (jR jA sid : String) (db : DBState) (p : TokenPayload) (jR2 jA2 : String)
    (db2 : DBState) (user2 : User)
    (hfresh : hasRotation db2 p.jti = false)
    (hfind : findUser db2 p.userId = some user2) :
    ((issue_tokens h user req jR jA sid db).2.sessions
      = db.sessions ++
          [{ id := sid
             userId := user.id
             refreshTokenJti := jR
             deviceFingerprint := get_device_fingerprint h req
             deviceName := parse_device_name req.userAgent
             ipAddress := get_client_ip req }])
    ∧ ((issue_tokens h user req jR jA sid db).1.refresh.deviceFp
        = some (h (get_device_fingerprint h req)))
    ∧ ((issue_tokens h user req jR jA sid db).1.refresh.ipHash
        = some (h (get_client_ip req)))
    ∧ ((issue_tokens h user req jR jA sid db).1.access.deviceFp
        = some (h (get_device_fingerprint h req)))
    ∧ ((issue_tokens h user req jR jA sid db).1.access.ipHash
        = some (h (get_client_ip req)))
    ∧ ((rotate_refresh_token h p req jR2 jA2 db2).2.rotations
        = db2.rotations ++
            [{ userId := user2.id
               oldTokenJti := p.jti
               newTokenJti := jR2
               ipAddress := get_client_ip req
               deviceFingerprint := get_device_fingerprint h req }]) := by
  refine ⟨?_, ?_, ?_, ?_, ?_, ?_⟩
  · simp [issue_tokens, CustomRefreshToken_for_user_with_context]
  · simp [issue_tokens, CustomRefreshToken_for_user_with_context]
  · simp [issue_tokens, CustomRefreshToken_for_user_with_context]
  · simp [issue_tokens, CustomRefreshToken_for_user_with_context,
      refresh_access_token, enrich_access_token]
  · simp [issue_tokens, CustomRefreshToken_for_user_with_context,
      refresh_access_token, enrich_access_token]
  · simp [rotate_refresh_token, hfresh, hfind, blacklist_jti_rotations,
      CustomRefreshToken_for_user_with_context]

/-- Witness for the amended C10 at concrete inputs. -/
theorem c10_witness :
    hasRotation cIssue.2 cIssue.1.refresh.jti = false
    ∧ findUser cIssue.2 cIssue.1.refresh.userId = some cUser
    ∧ (issue_tokens cH cUser cReq "r0" "a0" "s0" cDb0).1.refresh.ipHash
        = some (cH (get_client_ip cReq))
    ∧ (rotate_refresh_token cH cIssue.1.refresh cReq "r1" "a1" cIssue.2).2.rotations
        = cIssue.2.rotations ++
            [{ userId := cUser.id
               oldTokenJti := cIssue.1.refresh.jti
               newTokenJti := "r1"
               ipAddress := get_client_ip cReq
               deviceFingerprint := get_device_fingerprint cH cReq }] :=
  ⟨by decide, by decide,
   (c10_sessions_store_raw_ip cH cUser cReq "r0" "a0" "s0" cDb0 cIssue.1.refresh "r1" "a1"
      cIssue.2 cUser (by decide) (by decide)).2.2.1,
   (c10_sessions_store_raw_ip cH cUser cReq "r0" "a0" "s0" cDb0 cIssue.1.refresh "r1" "a1"
      cIssue.2 cUser (by decide) (by decide)).2.2.2.2.2⟩

/-- Counterexample to C2 as stated: after the replayed rotation of
T0.refresh raises `ReplayDetected` (second conjunct), the access
token T1.access of the successor pair issued by the first rotation
still passes the authentication gate (third conjunct) — mass
revocation only blacklists the refresh jtis recorded in the user's
sessions and leaves `token_version` untouched, so outstanding access
tokens keep validating. -/
theorem c2_counterexample :
    cRot1.1.toOption.isSome = true
    ∧ cRot2.1 = Except.error RotateError.replayDetected
    ∧ authenticate cH cPair1.access cReq cRot2.2
        = Except.ok { user := cUser, ipChangeLogged := false } :=
  ⟨rfl, rfl, rfl⟩

/-- C2 amended: after a `ReplayDetected` event for subject S, every
refresh-token jti recorded in S's active sessions at that moment
(this includes the successor refresh token, whose jti replaced the
old one in the session row) is blacklisted and any token bearing a
blacklisted jti fails the gate with `token_blacklisted`; all of S's
session rows are deleted; but no other jti is added to the blacklist
— in particular access tokens (never recorded in sessions), including
the successor pair's access token, are not revoked and continue to
pass validation while S's `token_version` is unchanged. -/
theorem c2_replay_mass_revocation (h : Hash) (p : TokenPayload) (req : Request)
    (jR jA : String) (db : DBState) (user : User)
    (hrot : hasRotation db p.jti = true)
    (hfind : findUser db p.userId = some user) :
    (rotate_refresh_token h p req jR jA db).1 = Except.error RotateError.replayDetected
    ∧ (∀ s_ ∈ db.sessions, s_.userId = user.id →
        inBlacklist (rotate_refresh_token h p req jR jA db).2 s_.refreshTokenJti = true)
    ∧ (∀ s_ ∈ (rotate_refresh_token h p req jR jA db).2.sessions, ¬ s_.userId = user.id)
    ∧ (∀ j, inBlacklist db j = false →
        (∀ s_ ∈ db.sessions, s_.userId = user.id → ¬ s_.refreshTokenJti = j) →
        inBlacklist (rotate_refresh_token h p req jR jA db).2 j = false)
    ∧ (∀ (p2 : TokenPayload) (req2 : Request) (db3 : DBState),
        inBlacklist db3 p2.jti = true → ¬ p2.jti = "" →
        authenticate h p2 req2 db3 = Except.error AuthError.tokenBlacklisted) := by
  have heq : (rotate_refresh_token h p req jR jA db).2
      = (revoke_all_user_tokens user "token_reuse" db).2 := by
    simp [rotate_refresh_token, hrot, hfind]
  refine ⟨?_, ?_, ?_, ?_, ?_⟩
  · simp [rotate_refresh_token, hrot, hfind]
  · intro s_ hs_ hsu
    rw [heq, revoke_all_inBlacklist, Bool.or_eq_true]
    refine Or.inr ?_
    rw [List.any_eq_true]
    exact ⟨s_, List.mem_filter.mpr ⟨hs_, by simp [hsu]⟩, by simp⟩
  · intro s_ hs_
    rw [heq, revoke_all_sessions] at hs_
    simpa using (List.mem_filter.mp hs_).2
  · intro j hnot hno
    rw [heq, revoke_all_inBlacklist, hnot]
    simp only [Bool.false_or]
    rw [List.any_eq_false]
    intro s_ hmem
    obtain ⟨hs_, hp⟩ := List.mem_filter.mp hmem
    have hid : s_.userId = user.id := by simpa using hp
    simpa using hno s_ hs_ hid
  · intro p2 req2 db3 hin hjt
    simp [authenticate, BlacklistValidator_validate, hin, hjt]

/-- Witness for the amended C2: replaying T0.refresh against the
post-rotation state fails with `ReplayDetected`, and the gate rejects
any blacklisted jti. -/
theorem c2_witness :
    hasRotation cRot1.2 cIssue.1.refresh.jti = true
    ∧ findUser cRot1.2 cIssue.1.refresh.userId = some cUser
    ∧ (rotate_refresh_token cH cIssue.1.refresh cReq "r2" "a2" cRot1.2).1
        = Except.error RotateError.replayDetected
    ∧ (∀ (p2 : TokenPayload) (req2 : Request) (db3 : DBState),
        inBlacklist db3 p2.jti = true → ¬ p2.jti = "" →
        authenticate cH p2 req2 db3 = Except.error AuthError.tokenBlacklisted) :=
  ⟨by decide, by decide,
   (c2_replay_mass_revocation cH cIssue.1.refresh cReq "r2" "a2" cRot1.2 cUser
      (by decide) (by decide)).1,
   (c2_replay_mass_revocation cH cIssue.1.refresh cReq "r2" "a2" cRot1.2 cUser
      (by decide) (by decide)).2.2.2.2⟩

/-! Helper lemmas for the concurrent-rotation analysis. -/

theorem rotStep_done {n : Nat} (h : Hash) (p : TokenPayload) (req : Request)
    (newR : Fin n → String) (i : Fin n) (st : (Fin n → RotPhase) × DBState)
    (o : RotOutcome) (hpi : st.1 i = RotPhase.done o) :
    rotStep h p req newR i st = st := by
  unfold rotStep
  rw [hpi]

theorem rotStep_start_replay {n : Nat} (h : Hash) (p : TokenPayload) (req : Request)
    (newR : Fin n → String) (i : Fin n) (st : (Fin n → RotPhase) × DBState) (user : User)
    (hpi : st.1 i = RotPhase.start)
    (hrot : hasRotation st.2 p.jti = true)
    (hfindst : findUser st.2 p.userId = some user) :
    rotStep h p req newR i st
      = (Function.update st.1 i (RotPhase.done RotOutcome.replayDetected),
         (revoke_all_user_tokens user "token_reuse" st.2).2) := by
  unfold rotStep
  rw [hpi]
  simp [hrot, hfindst]

theorem rotStep_start_fresh {n : Nat} (h : Hash) (p : TokenPayload) (req : Request)
    (newR : Fin n → String) (i : Fin n) (st : (Fin n → RotPhase) × DBState)
    (hpi : st.1 i = RotPhase.start)
    (hrot : hasRotation st.2 p.jti = false) :
    rotStep h p req newR i st = (Function.update st.1 i RotPhase.checked, st.2) := by
  unfold rotStep
  rw [hpi]
  simp [hrot]

theorem rotStep_checked_conflict {n : Nat} (h : Hash) (p : TokenPayload) (req : Request)
    (newR : Fin n → String) (i : Fin n) (st : (Fin n → RotPhase) × DBState) (user : User)
    (hpi : st.1 i = RotPhase.checked)
    (hrot : hasRotation st.2 p.jti = true)
    (hfindst : findUser st.2 p.userId = some user) :
    rotStep h p req newR i st
      = (Function.update st.1 i (RotPhase.done RotOutcome.integrityError), st.2) := by
  unfold rotStep
  rw [hpi]
  simp [hrot, hfindst]

theorem rotStep_checked_insert {n : Nat} (h : Hash) (p : TokenPayload) (req : Request)
    (newR : Fin n → String) (i : Fin n) (st : (Fin n → RotPhase) × DBState) (user : User)
    (hpi : st.1 i = RotPhase.checked)
    (hrot : hasRotation st.2 p.jti = false)
    (hfindst : findUser st.2 p.userId = some user) :
    rotStep h p req newR i st
      = (Function.update st.1 i (RotPhase.done RotOutcome.success),
         rotateCommit h p req user (newR i) st.2) := by
  unfold rotStep
  rw [hpi]
  simp [hrot, hfindst]

theorem rotStep_preserves_inv {n : Nat} (h : Hash) (p : TokenPayload) (req : Request)
    (newR : Fin n → String) (db0 : DBState) (user : User)
    (hfind : findUser db0 p.userId = some user)
    (i : Fin n) (st : (Fin n → RotPhase) × DBState)
    (hinv : RotInv p db0 st) : RotInv p db0 (rotStep h p req newR i st) := by
  obtain ⟨hus, hfree, hdone⟩ := hinv
  have hfindst : findUser st.2 p.userId = some user :=
    (findUser_congr db0 st.2 p.userId hus).trans hfind
  cases hpi : st.1 i with
  | done o =>
    rw [rotStep_done h p req newR i st o hpi]
    exact ⟨hus, hfree, hdone⟩
  | start =>
    cases hrot : hasRotation st.2 p.jti with
    | true =>
      rw [rotStep_start_replay h p req newR i st user hpi hrot hfindst]
      refine ⟨?_, ?_, ?_⟩
      · rw [revoke_all_users]
        exact hus
      · intro hfalse
        rw [hasRotation_congr st.2 _ p.jti (revoke_all_rotations user "token_reuse" st.2),
          hrot] at hfalse
        simp at hfalse
      · intro _
        obtain ⟨j, hj, huniq⟩ := hdone hrot
        have hji : ¬ j = i := by
          intro hh
          rw [hh, hpi] at hj
          simp at hj
        refine ⟨j, ?_, ?_⟩
        · show Function.update st.1 i (RotPhase.done RotOutcome.replayDetected) j = _
          rw [Function.update_noteq hji]
          exact hj
        · intro k hk
          have hk2 : Function.update st.1 i (RotPhase.done RotOutcome.replayDetected) k
              = RotPhase.done RotOutcome.success := hk
          by_cases hki : k = i
          · rw [hki, Function.update_same] at hk2
            simp at hk2
          · rw [Function.update_noteq hki] at hk2
            exact huniq k hk2
    | false =>
      rw [rotStep_start_fresh h p req newR i st hpi hrot]
      refine ⟨hus, ?_, ?_⟩
      · intro _ j
        show Function.update st.1 i RotPhase.checked j = RotPhase.start
          ∨ Function.update st.1 i RotPhase.checked j = RotPhase.checked
        by_cases hji : j = i
        · rw [hji, Function.update_same]
          exact Or.inr rfl
        · rw [Function.update_noteq hji]
          exact hfree hrot j
      · intro htrue
        rw [htrue] at hrot
        simp at hrot
  | checked =>
    cases hrot : hasRotation st.2 p.jti with
    | true =>
      rw [rotStep_checked_conflict h p req newR i st user hpi hrot hfindst]
      refine ⟨hus, ?_, ?_⟩
      · intro hfalse
        rw [hfalse] at hrot
        simp at hrot
      · intro _
        obtain ⟨j, hj, huniq⟩ := hdone hrot
        have hji : ¬ j = i := by
          intro hh
          rw [hh, hpi] at hj
          simp at hj
        refine ⟨j, ?_, ?_⟩
        · show Function.update st.1 i (RotPhase.done RotOutcome.integrityError) j = _
          rw [Function.update_noteq hji]
          exact hj
        · intro k hk
          have hk2 : Function.update st.1 i (RotPhase.done RotOutcome.integrityError) k
              = RotPhase.done RotOutcome.success := hk
          by_cases hki : k = i
          · rw [hki, Function.update_same] at hk2
            simp at hk2
          · rw [Function.update_noteq hki] at hk2
            exact huniq k hk2
    | false =>
      rw [rotStep_checked_insert h p req newR i st user hpi hrot hfindst]
      refine ⟨?_, ?_, ?_⟩
      · rw [rotateCommit_users]
        exact hus
      · intro hfalse
        rw [hasRotation_rotateCommit] at hfalse
        simp at hfalse
      · intro _
        refine ⟨i, ?_, ?_⟩
        · show Function.update st.1 i (RotPhase.done RotOutcome.success) i = _
          rw [Function.update_same]
        · intro k hk
          have hk2 : Function.update st.1 i (RotPhase.done RotOutcome.success) k
              = RotPhase.done RotOutcome.success := hk
          by_cases hki : k = i
          · exact hki
          · rw [Function.update_noteq hki] at hk2
            rcases hfree hrot k with hs | hc
            · rw [hs] at hk2
              simp at hk2
            · rw [hc] at hk2
              simp at hk2

theorem runSchedule_preserves_inv {n : Nat} (h : Hash) (p : TokenPayload) (req : Request)
    (newR : Fin n → String) (db0 : DBState) (user : User)
    (hfind : findUser db0 p.userId = some user)
    (sch : List (Fin n)) :
    ∀ st : (Fin n → RotPhase) × DBState, RotInv p db0 st →
      RotInv p db0 (runSchedule h p req newR sch st) := by
  induction sch with
  | nil =>
    intro st hst
    exact hst
  | cons i sch ih =>
    intro st hst
    show RotInv p db0 (List.foldl (fun acc j => rotStep h p req newR j acc) _ sch)
    exact ih _ (rotStep_preserves_inv h p req newR db0 user hfind i st hst)

/-- C1: rotation is single-use — the first Rotate on a refresh token
unseen by the rotation ledger succeeds and records its jti; any
Rotate presented with a jti already in the ledger fails with
`ReplayDetected`, however often it is retried; and under any
interleaving of N concurrent Rotate calls on the same token (atomic
events: the ledger `exists()` check and the uniqueness-guarded ledger
insert) in which every call completes, exactly one call succeeds. -/
theorem c1_rotation_single_use (h : Hash) (p : TokenPayload) (req : Request)
    (db : DBState) (user : User)
    (hfind : findUser db p.userId = some user)
    (hfresh : hasRotation db p.jti = false) :
    (∀ jR jA, (rotate_refresh_token h p req jR jA db).1.toOption.isSome = true
      ∧ hasRotation (rotate_refresh_token h p req jR jA db).2 p.jti = true)
    ∧ (∀ (db2 : DBState) (user2 : User) (jR jA : String),
        hasRotation db2 p.jti = true →
        findUser db2 p.userId = some user2 →
        (rotate_refresh_token h p req jR jA db2).1
          = Except.error RotateError.replayDetected)
    ∧ (∀ n : Nat, 0 < n → ∀ (newR : Fin n → String) (sch : List (Fin n)),
        (∀ i, ((runSchedule h p req newR sch ((fun _ => RotPhase.start), db)).1 i).isDone
            = true) →
        ∃! i, (runSchedule h p req newR sch ((fun _ => RotPhase.start), db)).1 i
          = RotPhase.done RotOutcome.success) := by
  refine ⟨?_, ?_, ?_⟩
  · intro jR jA
    constructor
    · simp [rotate_refresh_token, hfresh, hfind, Except.toOption]
    · have hrots : (rotate_refresh_token h p req jR jA db).2.rotations
          = db.rotations ++
              [{ userId := user.id
                 oldTokenJti := p.jti
                 newTokenJti := jR
                 ipAddress := get_client_ip req
                 deviceFingerprint := get_device_fingerprint h req }] := by
        simp [rotate_refresh_token, hfresh, hfind, blacklist_jti_rotations,
          CustomRefreshToken_for_user_with_context]
      unfold hasRotation
      rw [hrots, List.any_append]
      simp
  · intro db2 user2 jR jA hrot2 hfind2
    simp [rotate_refresh_token, hrot2, hfind2]
  · intro n hn newR sch hall
    have hinv0 : RotInv p db ((fun _ : Fin n => RotPhase.start), db) := by
      refine ⟨rfl, ?_, ?_⟩
      · intro _ i
        exact Or.inl rfl
      · intro htrue
        rw [htrue] at hfresh
        simp at hfresh
    have hinv := runSchedule_preserves_inv h p req newR db user hfind sch _ hinv0
    obtain ⟨hus, hfree, hdone⟩ := hinv
    cases hrot : hasRotation (runSchedule h p req newR sch
        ((fun _ => RotPhase.start), db)).2 p.jti with
    | false =>
      exfalso
      have hd := hall ⟨0, hn⟩
      rcases hfree hrot ⟨0, hn⟩ with hs | hc
      · rw [hs] at hd
        simp [RotPhase.isDone] at hd
      · rw [hc] at hd
        simp [RotPhase.isDone] at hd
    | true => exact hdone hrot

/-- Witness for C1: a fresh token for `cUser` rotates successfully;
the two-process interleaving check-check-insert-insert finishes with
exactly one success (the loser hits the uniqueness violation). -/
theorem c1_witness :
    findUser cDb0 c1Payload.userId = some cUser
    ∧ hasRotation cDb0 c1Payload.jti = false
    ∧ (rotate_refresh_token cH c1Payload cReq "nr1" "na1" cDb0).1.toOption.isSome = true
    ∧ (∀ i : Fin 2, ((runSchedule cH c1Payload cReq
          (fun i => if i.val = 0 then "w0" else "w1") [0, 1, 0, 1]
          ((fun _ => RotPhase.start), cDb0)).1 i).isDone = true)
    ∧ ∃! i : Fin 2, (runSchedule cH c1Payload cReq
          (fun i => if i.val = 0 then "w0" else "w1") [0, 1, 0, 1]
          ((fun _ => RotPhase.start), cDb0)).1 i = RotPhase.done RotOutcome.success :=
  ⟨by decide, by decide,
   ((c1_rotation_single_use cH c1Payload cReq cDb0 cUser (by decide) (by decide)).1
      "nr1" "na1").1,
   by decide,
   (c1_rotation_single_use cH c1Payload cReq cDb0 cUser (by decide) (by decide)).2.2
     2 (by decide) (fun i => if i.val = 0 then "w0" else "w1") [0, 1, 0, 1] (by decide)⟩
